import Mathlib

/-
Shallow embedding of the Vulkan bootstrap logic of `src/src/engine/base_configuration.rs`
(crate `malbi`).  Machine integers (`u32`) are modelled as `Nat` with an explicit
`% 2 ^ 32` where overflow matters; Rust panics and undefined behaviour are modelled
as `none` / `Except.error`; driver-provided data (enumerated adapters, queue family
tables, surface capability reports, layer lists) are explicit parameters.
-/

namespace Malbi

/-- `vk::QueueFlags::GRAPHICS` bit (0x1). -/
def GRAPHICS : Nat := 1

/-- `vk::PhysicalDeviceType::INTEGRATED_GPU` raw value (1). -/
def INTEGRATED_GPU : Nat := 1

/-- `vk::Format::B8G8R8A8_SRGB` raw value (50). -/
def B8G8R8A8_SRGB : Nat := 50

/-- `vk::ColorSpaceKHR::SRGB_NONLINEAR` raw value (0). -/
def SRGB_NONLINEAR : Nat := 0

/-- `vk::Extent2D { width: u32, height: u32 }`. -/
structure Extent2D where
  width : Nat
  height : Nat
deriving DecidableEq

/-
Image-count negotiation, `BaseConfig::init`, base_configuration.rs lines 137-144:
  let min_image_count = surface_capabilities.min_image_count + 1;
  let max_image_count = surface_capabilities.max_image_count;
  let desired_image_count = if max_image_count > 0 && min_image_count > max_image_count
      { max_image_count } else { min_image_count };
The `+ 1` is a `u32` addition, hence the explicit `% 2 ^ 32`.
-/
def desired_image_count (caps_min_image_count caps_max_image_count : Nat) : Nat :=
  let min_image_count := (caps_min_image_count + 1) % 2 ^ 32
  let max_image_count := caps_max_image_count
  if max_image_count > 0 ∧ min_image_count > max_image_count then
    max_image_count
  else
    min_image_count

/-
Rust `u32::clamp(self, min, max)` (used at lines 128-135): it asserts
`min <= max` (panics otherwise, modelled as `none`) and then returns
`if self < min { min } else if self > max { max } else { self }`.
-/
def u32_clamp (x lo hi : Nat) : Option Nat :=
  if lo ≤ hi then
    some (if x < lo then lo else if hi < x then hi else x)
  else
    none

/-
Extent negotiation, `BaseConfig::init`, lines 125-135:
  let mut swap_extent = surface_capabilities.current_extent;
  let window_dimensions = window.inner_size();
  swap_extent = swap_extent
      .width(window_dimensions.width.clamp(min_image_extent.width, max_image_extent.width))
      .height(window_dimensions.height.clamp(min_image_extent.height, max_image_extent.height));
Both fields of the initial value (the surface's current extent) are overwritten.
-/
def resolve_swap_extent (current_extent window_dimensions min_image_extent
    max_image_extent : Extent2D) : Option Extent2D :=
  let swap_extent := current_extent
  match u32_clamp window_dimensions.width min_image_extent.width max_image_extent.width,
        u32_clamp window_dimensions.height min_image_extent.height max_image_extent.height with
  | some w, some h => some { swap_extent with width := w, height := h }
  | _, _ => none

/-- `vk::SurfaceFormatKHR { format, color_space }` (raw enum values as `Nat`). -/
structure SurfaceFormatKHR where
  format : Nat
  color_space : Nat
deriving DecidableEq

/-
Surface-format negotiation, `BaseConfig::init`, lines 111-118:
  let surface_format = *surface_formats.clone().iter()
      .find(|&format| format.format.eq(&Format::B8G8R8A8_SRGB)
          && format.color_space.eq(&ColorSpaceKHR::SRGB_NONLINEAR))
      .unwrap_or(surface_formats.get_unchecked(0));
`get_unchecked(0)` performs no bounds check: on an empty list it is undefined
behaviour, modelled as `none` (`List.getElem?` at 0).
-/
def is_preferred_format (f : SurfaceFormatKHR) : Bool :=
  f.format == B8G8R8A8_SRGB && f.color_space == SRGB_NONLINEAR

def choose_surface_format (surface_formats : List SurfaceFormatKHR) :
    Option SurfaceFormatKHR :=
  match surface_formats.find? is_preferred_format with
  | some f => some f
  | none => surface_formats[0]?

/-- The preferred pair `(B8G8R8A8_SRGB, SRGB_NONLINEAR)` of lines 115-116. -/
def preferred_surface_format : SurfaceFormatKHR :=
  { format := B8G8R8A8_SRGB, color_space := SRGB_NONLINEAR }

/-
`BaseConfig::check_validation_layer_support`, lines 279-304: with
`layer_properties` the enumerated instance layers (modelled by their names)
and `used_layer_names` the requested layer names, it runs
  let mut flag = false;
  for _name in used_layer_names {
      match layer_properties.iter().find(|&lp| !lp.layer_name_as_c_str()...is_empty()) {
          Some(_) => { flag = true; break; }
          None => { flag = false; }
      };
  }
  flag
The loop body never looks at `_name`.
-/
def layer_name_nonempty (layer_property : String) : Bool :=
  !layer_property.isEmpty

def check_validation_layer_support (layer_properties : List String) :
    List String → Bool
  | [] => false
  | _name :: rest =>
    match layer_properties.find? layer_name_nonempty with
    | some _ => true
    | none => check_validation_layer_support layer_properties rest

/-- One queue family of an adapter: its `vk::QueueFlags` bitmask. -/
structure QueueFamilyProperties where
  queue_flags : Nat
deriving DecidableEq

/-- A physical device as consumed by the probe: its `vk::PhysicalDeviceType`
raw value and its queue family table (in enumeration order). -/
structure PhysicalDevice where
  device_type : Nat
  queue_families : List QueueFamilyProperties
deriving DecidableEq

/-- `vk::QueueFlags::contains(self, other)`: `self & other == other`. -/
def contains_flags (flags mask : Nat) : Bool :=
  flags &&& mask == mask

/-- `std::io::Error` as used here: `Error::new(ErrorKind::NotFound, msg)`. -/
inductive VkError where
  | notFound (msg : String)
deriving DecidableEq

/-
`BaseConfig::find_queue_family_index`, lines 390-405:
  let idxs = instance.get_physical_device_queue_family_properties(*physical_device)
      .iter().enumerate()
      .filter(|(_idx, qp)| qp.queue_flags.contains(queue_flag))
      .map(|entry| entry.0).collect::<Vec<usize>>();
  Ok(idxs)
Note: it returns `Ok` unconditionally — also on an empty index list.
-/
def find_queue_family_index (physical_device : PhysicalDevice) (queue_flag : Nat) :
    Except VkError (List Nat) :=
  Except.ok
    ((physical_device.queue_families.enum.filter
        (fun e => contains_flags e.2.queue_flags queue_flag)).map (fun e => e.1))

/-- Rust `Result::is_ok`. -/
def except_is_ok {ε α : Type} : Except ε α → Bool
  | Except.ok _ => true
  | Except.error _ => false

/-
`BaseConfig::physical_device_suitability`, lines 371-388:
  properties.device_type == PhysicalDeviceType::INTEGRATED_GPU
      && Self::find_queue_family_index(instance, &physical_device, queue_flag).is_ok()
-/
def physical_device_suitability (physical_device : PhysicalDevice)
    (queue_flag : Nat) : Bool :=
  physical_device.device_type == INTEGRATED_GPU &&
    except_is_ok (find_queue_family_index physical_device queue_flag)

/-
`BaseConfig::create_physical_device`, lines 344-369: scan the enumerated
devices in order, pick the first suitable one, else
`Err(Error::new(ErrorKind::NotFound, "No suitable physical device found!"))`.
-/
def create_physical_device (enumerated_physical_devices : List PhysicalDevice)
    (queue_flag : Nat) : Except VkError PhysicalDevice :=
  match enumerated_physical_devices.find?
      (fun physical_device => physical_device_suitability physical_device queue_flag) with
  | some physical_device => Except.ok physical_device
  | none => Except.error (VkError.notFound "No suitable physical device found!")

/-- An integrated-GPU adapter whose single queue family only advertises the
COMPUTE bit (0x2) — no queue family contains GRAPHICS. -/
def compute_only_integrated_adapter : PhysicalDevice :=
  { device_type := INTEGRATED_GPU, queue_families := [{ queue_flags := 2 }] }

/-- A `vk::Queue` handle, identified by the `(family index, queue index)` pair
passed to `get_device_queue`. -/
structure Queue where
  queue_family_idx : Nat
  queue_idx : Nat
deriving DecidableEq

/-- `BaseConfig::create_queue`, lines 407-409: `get_device_queue(family, 0)`. -/
def create_queue (queue_family_idx : Nat) : Queue :=
  { queue_family_idx := queue_family_idx, queue_idx := 0 }

/-
`BaseConfig::get_device_queues`, lines 411-442.  Rust `Vec` indexing panics
when out of bounds (modelled as `none`); the surface-support query is the
`present_support` oracle.
  let graphics_queue = Self::create_queue(&device, queue_family_indexes[0] as u32);
  let mut presentation_queue = None;
  if queue_family_indexes.len() > 1 && !queue_family_indexes[0].eq(&queue_family_indexes[1]) {
      let present_support = ...surface_support(..., queue_family_indexes[1] as u32, ...);
      if present_support {
          presentation_queue = Some(Self::create_queue(&device, queue_family_indexes[1] as u32));
      }
  }
  ((graphics_queue, queue_family_indexes[0]), (presentation_queue, queue_family_indexes[1]))
The final tuple reads `queue_family_indexes[1]` unconditionally.
-/
def get_device_queues (queue_family_indexes : List Nat)
    (present_support : Nat → Bool) :
    Option ((Queue × Nat) × (Option Queue × Nat)) :=
  match queue_family_indexes[0]? with
  | none => none
  | some idx0 =>
    let graphics_queue := create_queue idx0
    let presentation_queue : Option Queue :=
      match queue_family_indexes[1]? with
      | some idx1 =>
        if !(idx0 == idx1) && present_support idx1 then
          some (create_queue idx1)
        else
          none
      | none => none
    match queue_family_indexes[1]? with
    | some idx1 => some ((graphics_queue, idx0), (presentation_queue, idx1))
    | none => none

/-- The per-image `ImageViewCreateInfo` fields set at lines 170-186 that vary
or bound the subresource range (identity component mapping elided as it is
constant). -/
structure ImageViewCfg where
  image : Nat
  base_mip_level : Nat
  level_count : Nat
  base_array_layer : Nat
  layer_count : Nat
deriving DecidableEq

/-- Lines 167-191: one image view per swapchain image, in order. -/
def create_image_views (swapchain_images : List Nat) : List ImageViewCfg :=
  swapchain_images.map (fun image =>
    { image := image, base_mip_level := 0, level_count := 1,
      base_array_layer := 0, layer_count := 1 })

/-- The `FramebufferCreateInfo` fields set at lines 483-488. -/
structure FramebufferCfg where
  attachments : List ImageViewCfg
  render_pass : Nat
  width : Nat
  height : Nat
  layers : Nat
deriving DecidableEq

/-
`create_framebuffers`, lines 473-497: a for-loop over the image views that
pushes, for each view, one framebuffer whose sole attachment is that view.
-/
def create_framebuffers (render_pass : Nat) :
    List ImageViewCfg → Extent2D → List FramebufferCfg
  | [], _ => []
  | image_view :: rest, swapchain_extent =>
    { attachments := [image_view], render_pass := render_pass,
      width := swapchain_extent.width, height := swapchain_extent.height,
      layers := 1 } :: create_framebuffers render_pass rest swapchain_extent

/-- The objects of the bootstrap graph that `BaseConfig::init` creates and
that `Drop for BaseConfig` mentions. -/
inductive BootstrapObject where
  | vkInstance
  | vkSurface
  | debugMessenger
  | vkDevice
  | vkSwapchain
  | imageViews
  | renderPass
  | graphicsPipeline
  | framebuffers
deriving DecidableEq, BEq

/-- Creation order in `BaseConfig::init`: instance (line 63), surface (66),
debug messenger (76), device (84), swapchain (159), image views (167),
render pass (193), pipeline (196), framebuffers (199). -/
def init_construction_order : List BootstrapObject :=
  [BootstrapObject.vkInstance, BootstrapObject.vkSurface,
   BootstrapObject.debugMessenger, BootstrapObject.vkDevice,
   BootstrapObject.vkSwapchain, BootstrapObject.imageViews,
   BootstrapObject.renderPass, BootstrapObject.graphicsPipeline,
   BootstrapObject.framebuffers]

/-- `Drop for BaseConfig`, lines 677-685: it calls `destroy_instance` first
and `destroy_debug_utils_messenger` second, and destroys nothing else. -/
def drop_destruction_order : List BootstrapObject :=
  [BootstrapObject.vkInstance, BootstrapObject.debugMessenger]

end Malbi

namespace Malbi

/-- The closure of lines 114-117 accepts exactly the preferred pair. -/
theorem is_preferred_format_iff (f : SurfaceFormatKHR) :
    is_preferred_format f = true ↔ f = preferred_surface_format := by
  cases f with
  | mk fo cs =>
    simp [is_preferred_format, preferred_surface_format, B8G8R8A8_SRGB,
      SRGB_NONLINEAR, SurfaceFormatKHR.mk.injEq]

/-- `List.find? is_preferred_format` finds the preferred pair exactly when it
is a member. -/
theorem find_preferred_eq (fs : List SurfaceFormatKHR) :
    fs.find? is_preferred_format =
      if preferred_surface_format ∈ fs then some preferred_surface_format else none := by
  induction fs with
  | nil => rfl
  | cons a rest ih =>
    by_cases hpa : is_preferred_format a = true
    · have ha := (is_preferred_format_iff a).mp hpa
      subst ha
      rw [List.find?_cons_of_pos rest hpa, if_pos (List.mem_cons_self _ _)]
    · rw [List.find?_cons_of_neg rest hpa, ih]
      have hne : a ≠ preferred_surface_format :=
        fun h => hpa ((is_preferred_format_iff a).mpr h)
      by_cases hmem : preferred_surface_format ∈ rest
      · rw [if_pos hmem, if_pos (List.mem_cons_of_mem a hmem)]
      · rw [if_neg hmem, if_neg ?_]
        intro h
        rcases List.mem_cons.mp h with h1 | h2
        · exact hne h1.symm
        · exact hmem h2

/-- If no enumerated layer has a non-empty name, the scan returns `false` for
every requested list. -/
theorem check_validation_false_of_none (layer_properties : List String)
    (h : layer_properties.find? layer_name_nonempty = none) :
    ∀ used, check_validation_layer_support layer_properties used = false := by
  intro used
  induction used with
  | nil => rfl
  | cons a rest ih => simp only [check_validation_layer_support, h, ih]

/-- C2: image-count negotiation — for a surface capability report with
`min_image_count = m` and `max_image_count = x`, the resolved swapchain image
count is `x` when `x > 0` and `m + 1 > x`, and `m + 1` otherwise (in
particular `m + 1` when `x = 0`, meaning unbounded). -/
theorem image_count_negotiation (m x : Nat) (h : m + 1 < 2 ^ 32) :
    desired_image_count m x = if 0 < x ∧ x < m + 1 then x else m + 1 := by
  simp only [desired_image_count, Nat.mod_eq_of_lt h]

/-- Witness for `image_count_negotiation` at `m = 2`, `x = 0`. -/
theorem image_count_negotiation_witness :
    2 + 1 < 2 ^ 32 ∧ desired_image_count 2 0 = if 0 < 0 ∧ 0 < 2 + 1 then 0 else 2 + 1 :=
  ⟨by decide, image_count_negotiation 2 0 (by decide)⟩

/-- C3: extent negotiation — for window pixel size `(w, h)` and surface extent
bounds `[minW, maxW] × [minH, maxH]`, the resolved swapchain extent is
`(clamp w minW maxW, clamp h minH maxH)`; the surface's reported current
extent `cur` does not occur on the right-hand side, so it has no influence. -/
theorem extent_negotiation (cur win minE maxE : Extent2D)
    (hw : minE.width ≤ maxE.width) (hh : minE.height ≤ maxE.height) :
    resolve_swap_extent cur win minE maxE =
      some ⟨max minE.width (min win.width maxE.width),
            max minE.height (min win.height maxE.height)⟩ := by
  simp only [resolve_swap_extent, u32_clamp, if_pos hw, if_pos hh]
  have ew : (if win.width < minE.width then minE.width
      else if maxE.width < win.width then maxE.width else win.width) =
      max minE.width (min win.width maxE.width) := by
    split_ifs <;> omega
  have eh : (if win.height < minE.height then minE.height
      else if maxE.height < win.height then maxE.height else win.height) =
      max minE.height (min win.height maxE.height) := by
    split_ifs <;> omega
  rw [ew, eh]

/-- Witness for `extent_negotiation` at current extent `(5, 5)`, window
`(100, 200)`, bounds `[10, 50] × [10, 50]`. -/
theorem extent_negotiation_witness :
    resolve_swap_extent ⟨5, 5⟩ ⟨100, 200⟩ ⟨10, 10⟩ ⟨50, 50⟩ =
      some ⟨max 10 (min 100 50), max 10 (min 200 50)⟩ :=
  extent_negotiation ⟨5, 5⟩ ⟨100, 200⟩ ⟨10, 10⟩ ⟨50, 50⟩ (by decide) (by decide)

/-- C6: format negotiation — on a non-empty surface-format list, if the
preferred pair (8-bit BGRA SRGB format, SRGB-nonlinear color space) occurs in
the list then exactly that pair is chosen; otherwise the first listed pair is
chosen. -/
theorem format_negotiation (fs : List SurfaceFormatKHR) (hne : fs ≠ []) :
    (preferred_surface_format ∈ fs →
      choose_surface_format fs = some preferred_surface_format) ∧
    (preferred_surface_format ∉ fs → choose_surface_format fs = fs.head?) := by
  constructor
  · intro hmem
    simp [choose_surface_format, find_preferred_eq, hmem]
  · intro hnot
    cases fs with
    | nil => exact absurd rfl hne
    | cons a rest =>
      simp only [choose_surface_format, find_preferred_eq, if_neg hnot]
      exact (List.head?_eq_getElem? (a :: rest)).symm

/-- Witness for `format_negotiation`: on `[(0,0), (50,0)]` the preferred pair
is present and is chosen over the earlier first element. -/
theorem format_negotiation_witness :
    choose_surface_format [⟨0, 0⟩, ⟨50, 0⟩] = some preferred_surface_format :=
  (format_negotiation [⟨0, 0⟩, ⟨50, 0⟩] (by decide)).1 (by decide)

/-- C10: the fallback branch of surface-format selection reads element 0 with
no bounds check (`get_unchecked`), so the empty format list has no defined
result (no error value, modelled `none`), while every non-empty list yields a
defined result. -/
theorem format_selection_empty_undefined :
    choose_surface_format [] = none ∧
    ∀ fs : List SurfaceFormatKHR, fs ≠ [] → (choose_surface_format fs).isSome = true := by
  constructor
  · rfl
  · intro fs hne
    cases fs with
    | nil => exact absurd rfl hne
    | cons a rest =>
      unfold choose_surface_format
      cases hfind : (a :: rest).find? is_preferred_format with
      | some f => simp
      | none => simp

/-- Witness for `format_selection_empty_undefined` at the singleton list
`[(3, 4)]`. -/
theorem format_selection_empty_undefined_witness :
    (choose_surface_format [⟨3, 4⟩]).isSome = true :=
  format_selection_empty_undefined.2 [⟨3, 4⟩] (by decide)

/-- C7: the validation-layer presence check — for every non-empty requested
layer-name list, the result equals "some enumerated instance layer has a
non-empty name" and is therefore independent of which layer names were
requested. -/
theorem validation_layer_check_ignores_request (layer_properties : List String)
    (used_layer_names : List String) (hne : used_layer_names ≠ []) :
    check_validation_layer_support layer_properties used_layer_names =
      layer_properties.any (fun layer_property => !layer_property.isEmpty) := by
  show check_validation_layer_support layer_properties used_layer_names =
    layer_properties.any layer_name_nonempty
  cases used_layer_names with
  | nil => exact absurd rfl hne
  | cons a rest =>
    cases hfind : layer_properties.find? layer_name_nonempty with
    | some p =>
      have hany : layer_properties.any layer_name_nonempty = true := by
        rw [List.any_eq_true]
        exact ⟨p, List.mem_of_find?_eq_some hfind, List.find?_some hfind⟩
      simp only [check_validation_layer_support, hfind, hany]
    | none =>
      have hany : layer_properties.any layer_name_nonempty = false := by
        rw [List.any_eq_false]
        intro lp hlp
        have := List.find?_eq_none.mp hfind lp hlp
        simpa using this
      simp only [check_validation_layer_support, hfind, hany,
        check_validation_false_of_none layer_properties hfind]

/-- Witness for `validation_layer_check_ignores_request`: the requested name
is absent from the enumerated layers yet the check succeeds because some
enumerated name is non-empty. -/
theorem validation_layer_check_witness :
    check_validation_layer_support ["MoltenVK_layer"] ["VK_LAYER_KHRONOS_validation"] =
      List.any ["MoltenVK_layer"] (fun layer_property => !layer_property.isEmpty) :=
  validation_layer_check_ignores_request ["MoltenVK_layer"]
    ["VK_LAYER_KHRONOS_validation"] (by simp)

/-- The framebuffer loop is pointwise: one single-attachment framebuffer per
view, in order. -/
theorem create_framebuffers_eq_map (render_pass : Nat) (views : List ImageViewCfg)
    (extent : Extent2D) :
    create_framebuffers render_pass views extent =
      views.map (fun image_view =>
        { attachments := [image_view], render_pass := render_pass,
          width := extent.width, height := extent.height, layers := 1 }) := by
  induction views with
  | nil => rfl
  | cons v rest ih => simp [create_framebuffers, ih]

/-- C9: frame-target cardinality and order — the number of image views equals
the number of swapchain images, the number of framebuffers equals the number
of image views, and the framebuffer at index `i` has exactly the image view
at index `i` as its only attachment. -/
theorem frame_target_cardinality_and_order (images : List Nat) (render_pass : Nat)
    (extent : Extent2D) :
    (create_image_views images).length = images.length ∧
    (create_framebuffers render_pass (create_image_views images) extent).length =
      (create_image_views images).length ∧
    ∀ i : Nat,
      ((create_framebuffers render_pass (create_image_views images) extent)[i]?).map
          FramebufferCfg.attachments =
        ((create_image_views images)[i]?).map (fun image_view => [image_view]) := by
  refine ⟨by simp [create_image_views], ?_, ?_⟩
  · rw [create_framebuffers_eq_map]
    simp
  · intro i
    rw [create_framebuffers_eq_map]
    cases h : (create_image_views images)[i]? with
    | none => simp [List.getElem?_map, h]
    | some v => simp [List.getElem?_map, h]

/-- C1 (bug evaluation): `create_physical_device` selects an integrated-GPU
adapter none of whose queue families contains the GRAPHICS flag, because the
`find_queue_family_index(..).is_ok()` conjunct of the suitability predicate
is always true; the claim's suitability condition (b) is never enforced. -/
theorem adapter_selection_ignores_queue_capability :
    create_physical_device [compute_only_integrated_adapter] GRAPHICS =
      Except.ok compute_only_integrated_adapter ∧
    compute_only_integrated_adapter.queue_families.all
      (fun qf => !(contains_flags qf.queue_flags GRAPHICS)) = true :=
  ⟨rfl, by decide⟩

/-- C5 (bug evaluation): on an adapter with no queue family containing the
GRAPHICS mask, `find_queue_family_index` returns `Ok([])` instead of an
error — the `QueueFamilyNotFound` failure the spec requires never occurs. -/
theorem queue_family_no_match_returns_ok :
    compute_only_integrated_adapter.queue_families.all
      (fun qf => !(contains_flags qf.queue_flags GRAPHICS)) = true ∧
    find_queue_family_index compute_only_integrated_adapter GRAPHICS =
      Except.ok [] :=
  ⟨by decide, rfl⟩

/-- C4 (bug evaluation): on a resolved family list with exactly one index the
return tuple of `get_device_queues` reads `queue_family_indexes[1]`
unconditionally, so the call panics (modelled `none`) instead of returning
the graphics queue with an absent presentation queue. -/
theorem single_family_queue_lookup_panics :
    get_device_queues [0] (fun _ => true) = none := rfl

/-- C8 (bug evaluation): the debug messenger is created after the instance,
yet `Drop for BaseConfig` destroys the instance first and the messenger
second — destruction is not the exact reverse of construction, and the
messenger is destroyed strictly after, not before, the owning instance. -/
theorem teardown_order_violated :
    init_construction_order.indexOf BootstrapObject.vkInstance <
      init_construction_order.indexOf BootstrapObject.debugMessenger ∧
    drop_destruction_order.indexOf BootstrapObject.vkInstance <
      drop_destruction_order.indexOf BootstrapObject.debugMessenger := by
  decide

end Malbi
